import Mathlib

/-!
Verification of the coordinator-worker orchestration core of the repository:
the message protocol (`src/multi_agent/message_protocol.py`), the shared
state store (`src/multi_agent/shared_state.py`), the worker base class
(`src/multi_agent/worker_base.py`), the coordinator retry/workflow logic
(`src/multi_agent/coordinator.py`), the O.V.E. harness
(`src/memory_rag/ove_harness.py`) and the architect-builder loop
(`src/memory_rag/architect_builder.py`).

Python values that travel through JSON are modelled by the inductive `J`;
`json.dumps`/`json.loads` are the identity on such values (numbers are
modelled as integers, which suffices for every claim).  Mutable state is
passed explicitly; exceptions are modelled with `Except` or explicit
outcome constructors.
-/

mutual
/-- Model of a JSON value (the payloads and dictionaries that the Python
code passes around).  Numbers are modelled as integers.  `JList` and
`JFields` are the element list of an array and the key/value list of an
object (a mutual block so that decidable equality can be derived). -/
inductive J where
  | null : J
  | bool (b : Bool) : J
  | num (n : Int) : J
  | str (s : String) : J
  | arr (elems : JList) : J
  | obj (fields : JFields) : J
deriving DecidableEq, Repr

inductive JList where
  | nil : JList
  | cons (hd : J) (tl : JList) : JList
deriving DecidableEq, Repr

inductive JFields where
  | nil : JFields
  | cons (key : String) (val : J) (tl : JFields) : JFields
deriving DecidableEq, Repr
end

/-- Builds a JSON array from a Lean list. -/
def jarr (l : List J) : J :=
  .arr (l.foldr (fun v t => .cons v t) .nil)

/-- Builds a JSON object from a Lean association list. -/
def jobj (l : List (String × J)) : J :=
  .obj (l.foldr (fun kv t => .cons kv.1 kv.2 t) .nil)

/-- First-occurrence lookup in an object's field list. -/
def JFields.lookup : JFields → String → Option J
  | .nil, _ => none
  | .cons k v t, key => if k = key then some v else t.lookup key

/-- Python `dict[key]`-style lookup on a JSON object: `some v` when the key
is present (first occurrence), `none` when absent or when the value is not
an object. -/
def J.lookupKey : J → String → Option J
  | .obj fields, k => fields.lookup k
  | _, _ => none

/-- Python `dict.get(key)` on a JSON object after a `json.loads`: a JSON
`null` value becomes Python `None`, indistinguishable from an absent key. -/
def J.pyGet (d : J) (k : String) : Option J :=
  match d.lookupKey k with
  | some .null => none
  | o => o

/-- `MessageType` enum from `message_protocol.py`. -/
inductive MessageType where
  | request : MessageType
  | response : MessageType
  | error : MessageType
deriving DecidableEq, Repr

/-- `MessageType.value` (the enum's string value). -/
def MessageType.value : MessageType → String
  | .request => "request"
  | .response => "response"
  | .error => "error"

/-- `MessageType(s)` enum construction from a string; `none` models the
`ValueError` raised on an unknown value. -/
def MessageType.ofValue : String → Option MessageType
  | "request" => some .request
  | "response" => some .response
  | "error" => some .error
  | _ => none

/-- `Message` from `message_protocol.py`.  The constructor always fills
`message_id`, `timestamp` and `trace_id` (generating fresh values when the
caller omits them), so the model carries them as plain strings; `action`
and `in_reply_to` stay optional. -/
structure Message where
  message_id : String
  timestamp : String
  from_agent : String
  to_agent : String
  message_type : MessageType
  action : Option String
  payload : J
  in_reply_to : Option String
  trace_id : String
deriving DecidableEq, Repr

/-- Optional string fields are serialized as their value or JSON null. -/
def optStr : Option String → J
  | none => .null
  | some s => .str s

/-- `Message.to_dict` (the dictionary that `to_json` dumps; `to_json` is
`json.dumps` of this value, modelled as the identity on `J`). -/
def Message.to_dict (m : Message) : J :=
  jobj [ ("message_id", .str m.message_id),
         ("timestamp", .str m.timestamp),
         ("from_agent", .str m.from_agent),
         ("to_agent", .str m.to_agent),
         ("message_type", .str m.message_type.value),
         ("action", optStr m.action),
         ("payload", m.payload),
         ("in_reply_to", optStr m.in_reply_to),
         ("trace_id", .str m.trace_id) ]

/-- Reads an optional string field the way `cls(...)` receives it from
`data.get(k)`: absent or null gives Python `None`. -/
def J.pyGetStr (d : J) (k : String) : Option String :=
  match d.pyGet k with
  | some (.str s) => some s
  | _ => none

/-- `Message.from_dict`.  Required fields (`from_agent`, `to_agent`,
`message_type`, `payload`) are read with `data[k]` and their absence is an
error (`KeyError` in Python); `message_type` must be a valid enum value
(`ValueError` otherwise); the remaining fields fall back to the
constructor's defaults, supplied here as the `freshId`/`freshTs`/`freshTr`
parameters standing for the freshly generated UUIDs/timestamp. -/
def Message.from_dict (freshId freshTs freshTr : String) (d : J) :
    Except String Message :=
  match d.lookupKey "from_agent", d.lookupKey "to_agent",
        d.lookupKey "message_type", d.lookupKey "payload" with
  | some (.str fa), some (.str ta), some (.str mt), some p =>
    match MessageType.ofValue mt with
    | some t =>
        .ok { message_id := (d.pyGetStr "message_id").getD freshId
              timestamp := (d.pyGetStr "timestamp").getD freshTs
              from_agent := fa
              to_agent := ta
              message_type := t
              action := d.pyGetStr "action"
              payload := p
              in_reply_to := d.pyGetStr "in_reply_to"
              trace_id := (d.pyGetStr "trace_id").getD freshTr }
    | none => .error "ValueError: invalid message_type"
  | _, _, _, _ => .error "KeyError: missing required field"

/-- `WorkerAgent.execute_message` from `worker_base.py`.  The agent's
`execute(action, payload)` is abstracted as a function `exec` that either
returns a result dictionary (`.ok`) or raises an exception (`.error` with
the exception's string form, covering the `except Exception` branch).
`freshId`/`freshTs` stand for the `message_id`/`timestamp` the `Message`
constructor generates for the reply. -/
def WorkerAgent.execute_message (name : String)
    (exec : Option String → J → Except String J)
    (freshId freshTs : String) (request : Message) : Message :=
  match exec request.action request.payload with
  | .ok result =>
      { message_id := freshId
        timestamp := freshTs
        from_agent := name
        to_agent := request.from_agent
        message_type := .response
        action := none
        payload := result
        in_reply_to := some request.message_id
        trace_id := request.trace_id }
  | .error e =>
      { message_id := freshId
        timestamp := freshTs
        from_agent := name
        to_agent := request.from_agent
        message_type := .error
        action := none
        payload := jobj [("error", .str e)]
        in_reply_to := some request.message_id
        trace_id := request.trace_id }

/-- A value a caller may hand to `SharedState.set`/`update`: either a
JSON-representable value or some other Python object that `json.dump`
cannot serialize. -/
inductive PyVal where
  | json (j : J) : PyVal
  | obj (descr : String) : PyVal
deriving DecidableEq, Repr

/-- Whether `json.dump` can serialize the value. -/
def PyVal.serializable : PyVal → Bool
  | .json _ => true
  | .obj _ => false

/-- The shared-state file on disk (`shared_state.json`). `corrupt` covers a
truncated or partially-written file — `open(..., "w")` truncates first and
`json.dump` writes incrementally, so an encoding failure mid-dump leaves
content that does not parse back. -/
inductive StateFile where
  | missing : StateFile
  | wellFormed (entries : List (String × J)) : StateFile
  | corrupt : StateFile
deriving DecidableEq, Repr

/-- The sentinel state used both at initialization and as the fallback of
`_read` on a missing or corrupt file. -/
def initialState : List (String × J) := [("_initialized", .bool true)]

/-- `SharedState._read`: parses the file under a shared lock; a missing or
unparsable file yields the sentinel state instead of raising. -/
def SharedState.read : StateFile → List (String × J)
  | .wellFormed s => s
  | _ => initialState

/-- Python `dict[key] = value` on an insertion-ordered dictionary:
replaces in place, or appends when the key is new. -/
def dictSet : List (String × PyVal) → String → PyVal → List (String × PyVal)
  | [], k, v => [(k, v)]
  | (k', v') :: t, k, v =>
      if k' = k then (k, v) :: t else (k', v') :: dictSet t k v

/-- A freshly `_read` state seen as a Python dictionary (every stored value
is JSON-representable). -/
def toPyState (s : List (String × J)) : List (String × PyVal) :=
  s.map (fun kv => (kv.1, .json kv.2))

/-- `json.dump` over the whole dictionary: succeeds only when every value
is serializable. -/
def serializeState : List (String × PyVal) → Option (List (String × J))
  | [] => some []
  | (k, .json j) :: t =>
      match serializeState t with
      | some rest => some ((k, j) :: rest)
      | none => none
  | (_, .obj _) :: _ => none

/-- `SharedState._write`: truncates the file and dumps the dictionary under
an exclusive lock.  On an unserializable value `json.dump` raises
`TypeError` (the second component is `true`) with the file already
truncated/partially written. -/
def SharedState.write (s : List (String × PyVal)) : StateFile × Bool :=
  match serializeState s with
  | some js => (.wellFormed js, false)
  | none => (.corrupt, true)

/-- `SharedState.set`: read-modify-write; the returned flag records whether
the call raised. -/
def SharedState.set (f : StateFile) (k : String) (v : PyVal) : StateFile × Bool :=
  SharedState.write (dictSet (toPyState (SharedState.read f)) k v)

/-- `SharedState.update`: read, `dict.update`, write. -/
def SharedState.update (f : StateFile) (updates : List (String × PyVal)) :
    StateFile × Bool :=
  SharedState.write
    (updates.foldl (fun s kv => dictSet s kv.1 kv.2) (toPyState (SharedState.read f)))

/-- `SharedState.get`: `_read` then `dict.get(key, default)`; the caller's
default is handled by the surrounding `Option`. -/
def SharedState.get (f : StateFile) (k : String) : Option J :=
  (SharedState.read f).lookup k

/-- What one call to `agent.execute_message(request)` does, from the
coordinator's point of view: return a reply message, raise a
`CoordinatorError` subclass, or raise any other exception. -/
inductive AgentReply where
  | reply (m : Message) : AgentReply
  | raiseCoord (msg : String) : AgentReply
  | raiseOther (msg : String) : AgentReply
deriving DecidableEq, Repr

/-- The `CoordinatorError` values produced inside `delegate`'s `try` block:
an `AgentDelegationError` built from an ERROR reply (carrying
`payload.get("error")`), the protocol-violation `AgentDelegationError` for
an unexpected message type, or a `CoordinatorError` raised by the call
itself. -/
inductive CoordErr where
  | agentError (errField : Option J) : CoordErr
  | unexpectedType (mt : MessageType) : CoordErr
  | raised (msg : String) : CoordErr
deriving DecidableEq, Repr

/-- How one iteration of `delegate`'s retry loop ends: the `try` body
returns the payload, a `CoordinatorError` is caught by the
`except CoordinatorError` handler, or some other exception propagates. -/
inductive AttemptResult where
  | ok (payload : J) : AttemptResult
  | caught (e : CoordErr) : AttemptResult
  | uncaught (msg : String) : AttemptResult
deriving DecidableEq, Repr

/-- The body of `delegate`'s `try` block on one reply: ERROR replies raise
`AgentDelegationError` from the payload's error field, RESPONSE replies
return the payload, and any other message type raises the
protocol-violation `AgentDelegationError` — all three `raise`s land in the
`except CoordinatorError` handler when caught. -/
def runAttempt : AgentReply → AttemptResult
  | .reply m =>
      match m.message_type with
      | .error => .caught (.agentError (m.payload.lookupKey "error"))
      | .response => .ok m.payload
      | .request => .caught (.unexpectedType .request)
  | .raiseCoord s => .caught (.raised s)
  | .raiseOther s => .uncaught s

/-- The caught error of an attempt, when there is one. -/
def AttemptResult.errOrNone : AttemptResult → Option CoordErr
  | .caught e => some e
  | _ => none

/-- How `Coordinator.delegate` ends: return of a RESPONSE payload, the
final `AgentDelegationError` (embedding the last error seen, `none` when
`max_retries == 0` and the loop never ran), or an uncaught exception
propagating out. -/
inductive DelegateOutcome where
  | success (payload : J) : DelegateOutcome
  | delegationError (lastError : Option CoordErr) : DelegateOutcome
  | uncaught (msg : String) : DelegateOutcome
deriving DecidableEq, Repr

/-- Observable result of one `delegate` call: its outcome, how many times
the worker was invoked, and the list of backoff sleeps performed (in
seconds, in order). -/
structure DelegateResult where
  outcome : DelegateOutcome
  calls : Nat
  sleeps : List Nat
deriving DecidableEq, Repr

/-- The retry loop of `Coordinator.delegate`, from iteration `attempt` with
`fuel` iterations left (`attempt = max_retries - fuel`) and `last_error`
so far.  A caught `CoordinatorError` on a non-final attempt triggers a
`time.sleep(2 ** attempt)` and the next iteration; on the final attempt the
loop exits and `AgentDelegationError` is raised with the last error. -/
def delegateGo (agent : Nat → AgentReply) (attempt : Nat)
    (lastErr : Option CoordErr) : Nat → DelegateResult
  | 0 => ⟨.delegationError lastErr, 0, []⟩
  | fuel + 1 =>
      match runAttempt (agent attempt) with
      | .ok p => ⟨.success p, 1, []⟩
      | .uncaught s => ⟨.uncaught s, 1, []⟩
      | .caught e =>
          if fuel = 0 then ⟨.delegationError (some e), 1, []⟩
          else
            let rest := delegateGo agent (attempt + 1) (some e) fuel
            ⟨rest.outcome, rest.calls + 1, 2 ^ attempt :: rest.sleeps⟩

/-- `Coordinator.delegate(agent, action, payload, max_retries)`.  The agent
is abstracted as its reply behaviour per attempt index (the REQUEST message
built for it carries the fixed `action`/`payload`/`trace_id`, so only the
attempt number varies across the loop). -/
def Coordinator.delegate (agent : Nat → AgentReply) (maxRetries : Nat) :
    DelegateResult :=
  delegateGo agent 0 none maxRetries

/-- A worker as seen by `generate_report`: its reply depends on the action,
the request payload and the attempt index. -/
def Worker : Type := Option String → J → Nat → AgentReply

/-- The three specialized workers wired into the coordinator. -/
structure Workers where
  research : Worker
  data : Worker
  writer : Worker

/-- The three phases of `generate_report`, in order. -/
inductive Phase where
  | research : Phase
  | data : Phase
  | writer : Phase
deriving DecidableEq, Repr

/-- How `generate_report` ends: the report string from the writer phase, a
`WorkflowError` naming the failing phase, a `DelegationError` from the
named phase's `delegate` call, or an uncaught exception from it. -/
inductive ReportOutcome where
  | report (r : J) : ReportOutcome
  | workflowError (phase : Phase) : ReportOutcome
  | delegationError (phase : Phase) (lastError : Option CoordErr) : ReportOutcome
  | uncaught (phase : Phase) (msg : String) : ReportOutcome
deriving DecidableEq, Repr

/-- Observable result of `generate_report`: its outcome and how many times
each worker was invoked. -/
structure ReportResult where
  outcome : ReportOutcome
  researchCalls : Nat
  dataCalls : Nat
  writerCalls : Nat
deriving DecidableEq, Repr

/-- The research-phase `delegate` call (action `gather_info`, payload
`{"query": query}`, default `max_retries = 3`). -/
def researchDel (w : Workers) (query : String) : DelegateResult :=
  Coordinator.delegate (w.research (some "gather_info") (jobj [("query", .str query)])) 3

/-- The data-phase `delegate` call (action `analyze_trends`, payload
`{"findings": ..., "query": ...}`). -/
def dataDel (w : Workers) (query : String) (findings : J) : DelegateResult :=
  Coordinator.delegate
    (w.data (some "analyze_trends")
      (jobj [("findings", findings), ("query", .str query)])) 3

/-- The writer-phase `delegate` call (action `create_report`, payload
`{"query": ..., "findings": ..., "analysis": ...}`). -/
def writerDel (w : Workers) (query : String) (findings analysis : J) :
    DelegateResult :=
  Coordinator.delegate
    (w.writer (some "create_report")
      (jobj [("query", .str query), ("findings", findings),
             ("analysis", analysis)])) 3

/-- `Coordinator.generate_report`: research, data-analysis and writing in
strict order; each phase's payload must report `status == "success"` or a
`WorkflowError` naming the phase is raised; each phase's output feeds the
next phase's input. -/
def Coordinator.generate_report (w : Workers) (query : String) : ReportResult :=
  let r := researchDel w query
  match r.outcome with
  | .delegationError e => ⟨.delegationError .research e, r.calls, 0, 0⟩
  | .uncaught s => ⟨.uncaught .research s, r.calls, 0, 0⟩
  | .success p =>
    if p.lookupKey "status" = some (.str "success") then
      let findings := (p.lookupKey "findings").getD (jarr [])
      let d := dataDel w query findings
      match d.outcome with
      | .delegationError e => ⟨.delegationError .data e, r.calls, d.calls, 0⟩
      | .uncaught s => ⟨.uncaught .data s, r.calls, d.calls, 0⟩
      | .success q =>
        if q.lookupKey "status" = some (.str "success") then
          let analysis := (q.lookupKey "analysis").getD (jobj [])
          let wr := writerDel w query findings analysis
          match wr.outcome with
          | .delegationError e =>
              ⟨.delegationError .writer e, r.calls, d.calls, wr.calls⟩
          | .uncaught s => ⟨.uncaught .writer s, r.calls, d.calls, wr.calls⟩
          | .success u =>
            if u.lookupKey "status" = some (.str "success") then
              ⟨.report ((u.lookupKey "report").getD (.str "")),
               r.calls, d.calls, wr.calls⟩
            else ⟨.workflowError .writer, r.calls, d.calls, wr.calls⟩
        else ⟨.workflowError .data, r.calls, d.calls, 0⟩
    else ⟨.workflowError .research, r.calls, 0, 0⟩

/-- One parameter of a Python function as the harness inspects it: its
name and whether it carries a type annotation.  Only `args.args`
(positional-or-keyword parameters) are inspected by the source. -/
structure PyArg where
  name : String
  annotated : Bool
deriving DecidableEq, Repr

/-- One `FunctionDef`/`AsyncFunctionDef` node as the harness inspects it:
its `args.args`, whether `returns` is annotated, and whether the first
body statement is a string constant (a docstring). -/
structure PyFunc where
  args : List PyArg
  returnsAnnotated : Bool
  docstring : Bool
deriving DecidableEq, Repr

/-- A code string as the harness observes it: whether `code.strip()` is
empty, whether `compile(code, "<string>", "exec")` succeeds, and the
function nodes found by `ast.walk` (meaningful only when the code
parses). -/
structure PyCode where
  blank : Bool
  parses : Bool
  funcs : List PyFunc
deriving DecidableEq, Repr

/-- One entry of the validation `checks` list (its diagnostic `message`
string is elided from the model). -/
structure Check where
  name : String
  passed : Bool
deriving DecidableEq, Repr

/-- `validate`'s result: the overall `passed` flag and the recorded
`checks`. -/
structure Validation where
  passed : Bool
  checks : List Check
deriving DecidableEq, Repr

/-- `_check_has_functions`: informational — `passed` is `True` whether or
not functions are found. -/
def checkHasFunctions (funcs : List PyFunc) : Check :=
  if funcs.isEmpty then ⟨"has_functions", true⟩ else ⟨"has_functions", true⟩

/-- The scan of `_check_type_hints`: some function has a return annotation,
or an annotated `args.args` parameter whose name is neither `self` nor
`cls`. -/
def typeHintsFound (funcs : List PyFunc) : Bool :=
  funcs.any (fun f =>
    f.returnsAnnotated ||
      f.args.any (fun a => decide (a.name ≠ "self" ∧ a.name ≠ "cls") && a.annotated))

/-- `_check_type_hints`: trivially passes with no functions, otherwise
passes iff the scan finds a hint. -/
def checkTypeHints (funcs : List PyFunc) : Check :=
  if funcs.isEmpty then ⟨"type_hints", true⟩
  else if typeHintsFound funcs then ⟨"type_hints", true⟩
  else ⟨"type_hints", false⟩

/-- `_check_docstrings`: trivially passes with no functions, otherwise
records whether some function starts with a docstring (informational). -/
def checkDocstrings (funcs : List PyFunc) : Check :=
  if funcs.isEmpty then ⟨"docstrings", true⟩
  else if funcs.any (fun f => f.docstring) then ⟨"docstrings", true⟩
  else ⟨"docstrings", false⟩

/-- `OVETestHarness.validate`: the `has_code` gate, then the syntax check
(short-circuiting on failure), then the functions / type-hints /
docstrings checks; the overall flag starts `True` and is cleared by a
syntax failure or a type-hints failure only. -/
def OVETestHarness.validate (c : PyCode) : Validation :=
  if c.blank then ⟨false, [⟨"has_code", false⟩]⟩
  else if !c.parses then ⟨false, [⟨"syntax", false⟩]⟩
  else
    let tc := checkTypeHints c.funcs
    ⟨tc.passed,
     [⟨"syntax", true⟩, checkHasFunctions c.funcs, tc, checkDocstrings c.funcs]⟩

/-- The generated test code as the harness observes it. -/
structure PyTests where
  blank : Bool
  parses : Bool
deriving DecidableEq, Repr

/-- `evaluate`'s result (`passed` plus the `reason` string; the dynamic
test-error detail inside the reason is elided). -/
structure Evaluation where
  passed : Bool
  reason : String
deriving DecidableEq, Repr

/-- `OVETestHarness.evaluate`: fails (skipped) when validation failed;
trivially passes without tests; otherwise only checks that the test code
parses. -/
def OVETestHarness.evaluate (tests : PyTests) (v : Validation) : Evaluation :=
  if !v.passed then ⟨false, "Validation failed, skipping evaluation"⟩
  else if tests.blank then ⟨true, "No tests to run"⟩
  else if !tests.parses then ⟨false, "Test syntax error"⟩
  else ⟨true, "Test syntax valid (execution not implemented)"⟩

/-- A builder artifact as observed by the harness (`file`/metadata fields
play no role in the checks). -/
structure Implementation where
  code : PyCode
  tests : PyTests
deriving DecidableEq, Repr

/-- `run`'s result: both phase results and
`overall_passed = validation.passed and evaluation.passed`. -/
structure RunResult where
  validation : Validation
  evaluation : Evaluation
  overallPassed : Bool
deriving DecidableEq, Repr

/-- `OVETestHarness.run`: observe (pure capture), validate, evaluate. -/
def OVETestHarness.run (impl : Implementation) : RunResult :=
  let v := OVETestHarness.validate impl.code
  let e := OVETestHarness.evaluate impl.tests v
  ⟨v, e, v.passed && e.passed⟩

/-- `str()` of one check dict, as it ends up inside `previous_errors`
(Python's exact `repr` punctuation is abstracted; the rendering is
injective in the fields the model keeps). -/
def checkStr (c : Check) : String :=
  "check(name=" ++ c.name ++ ", passed=" ++ (cond c.passed "True" "False") ++ ")"

/-- `str(ove_result.get("validation", \x7b\x7d))` as recorded onto the task. -/
def validationStr (v : Validation) : String :=
  "validation(passed=" ++ (cond v.passed "True" "False") ++ ", checks=[" ++
    String.intercalate ", " (v.checks.map checkStr) ++ "])"

/-- The architect's review of an implementation
(`validation.get("approved", False)` / `validation.get("feedback", "")`). -/
structure Review where
  approved : Bool
  feedback : String
deriving DecidableEq, Repr

/-- The mutable fields of a planning task that the retry loop touches. -/
structure TaskSt where
  id : Nat
  prevErrors : Option String
  prevFeedback : Option String
deriving DecidableEq, Repr

/-- The per-task result dict of `_process_task`. -/
structure TaskResult where
  taskId : Nat
  success : Bool
  attempts : Nat
  implementation : Option Implementation
  lastError : Option String
deriving DecidableEq, Repr

/-- `ArchitectBuilderCoordinator.MAX_RETRIES`. -/
def MAX_RETRIES : Nat := 3

/-- The retry loop of `_process_task`, from iteration `attempt` with `fuel`
iterations left.  The builder and the architect reviewer are abstracted as
their behaviour per attempt index (each fresh `builder.implement(task)` /
`architect.validate(task, code)` call may differ).  A harness failure
records `str(validation)` onto `previous_errors`; a review rejection
records the feedback onto `previous_feedback`; exhaustion returns
`success=False`, `attempts=MAX_RETRIES` and
`last_error = task.get("previous_errors", task.get("previous_feedback",
"Unknown error"))`. -/
def processTaskGo (builder : Nat → Implementation) (reviewer : Nat → Review)
    (t : TaskSt) (attempt : Nat) : Nat → TaskResult
  | 0 =>
      ⟨t.id, false, MAX_RETRIES, none,
       some (t.prevErrors.getD (t.prevFeedback.getD "Unknown error"))⟩
  | fuel + 1 =>
      let impl := builder attempt
      let ove := OVETestHarness.run impl
      if ove.overallPassed then
        let rev := reviewer attempt
        if rev.approved then ⟨t.id, true, attempt + 1, some impl, none⟩
        else
          processTaskGo builder reviewer
            { t with prevFeedback := some rev.feedback } (attempt + 1) fuel
      else
        processTaskGo builder reviewer
          { t with prevErrors := some (validationStr ove.validation) }
          (attempt + 1) fuel

/-- `ArchitectBuilderCoordinator._process_task`. -/
def ArchitectBuilderCoordinator.process_task (builder : Nat → Implementation)
    (reviewer : Nat → Review) (t : TaskSt) : TaskResult :=
  processTaskGo builder reviewer t 0 MAX_RETRIES

/-- The workflow summary dict of `_create_summary`. -/
structure Summary where
  totalTasks : Nat
  successfulTasks : Nat
  failedTasks : Nat
  results : List TaskResult
  overallSuccess : Bool
deriving DecidableEq, Repr

/-- `ArchitectBuilderCoordinator._create_summary`:
`overall_success = (len(failed) == 0) and (len(plan) > 0)`. -/
def ArchitectBuilderCoordinator.create_summary (plan : List TaskSt)
    (results : List TaskResult) : Summary :=
  let failed := results.filter (fun r => !r.success)
  ⟨plan.length,
   (results.filter (fun r => r.success)).length,
   failed.length,
   results,
   decide (failed.length = 0) && decide (0 < plan.length)⟩

/-- `ArchitectBuilderCoordinator.process_request`: plan (abstracted as the
`plan` argument), process each task in order, summarize.  The builder and
reviewer behaviours are indexed by the task's position in the plan and by
the attempt. -/
def ArchitectBuilderCoordinator.process_request (plan : List TaskSt)
    (builder : Nat → Nat → Implementation) (reviewer : Nat → Nat → Review) :
    Summary :=
  if plan.isEmpty then ArchitectBuilderCoordinator.create_summary [] []
  else
    ArchitectBuilderCoordinator.create_summary plan
      (plan.enum.map (fun p =>
        ArchitectBuilderCoordinator.process_task (builder p.1) (reviewer p.1) p.2))

/-- The specification's reading of "at least one type-annotated parameter
or return type across all functions", stated independently of the harness
code (parameters named `self`/`cls` are not counted, matching the
harness's scan). -/
def specTypeHints (funcs : List PyFunc) : Prop :=
  ∃ f ∈ funcs, f.returnsAnnotated = true ∨
    ∃ a ∈ f.args, (a.name ≠ "self" ∧ a.name ≠ "cls") ∧ a.annotated = true

instance (funcs : List PyFunc) : Decidable (specTypeHints funcs) := by
  unfold specTypeHints
  infer_instance

/-- The model of the empty (or whitespace-only) code string: stripped
empty, yet syntactically valid Python with no function definitions. -/
def emptyCode : PyCode := ⟨true, true, []⟩

/-- An ERROR reply as built by a worker's fault-isolation wrapper. -/
def errorReply : Message :=
  ⟨"m-err", "t0", "research", "coordinator", .error, none,
   jobj [("error", .str "boom")], some "req-1", "tr-1"⟩

/-- A successful RESPONSE reply whose payload reports business success. -/
def successReply : Message :=
  ⟨"m-ok", "t0", "research", "coordinator", .response, none,
   jobj [("status", .str "success")], some "req-1", "tr-1"⟩

/-- A protocol-violating reply: its type is REQUEST, neither RESPONSE nor
ERROR. -/
def requestReply : Message :=
  ⟨"m-bad", "t0", "research", "coordinator", .request, none,
   jobj [], some "req-1", "tr-1"⟩

/-- A RESPONSE reply whose payload reports business failure. -/
def failStatusReply : Message :=
  ⟨"m-fail", "t0", "research", "coordinator", .response, none,
   jobj [("status", .str "error"), ("error", .str "no sources")],
   some "req-1", "tr-1"⟩

/-- A worker that fails (ERROR reply) on its first two attempts and then
succeeds. -/
def failTwiceAgent : Nat → AgentReply :=
  fun i => if i < 2 then .reply errorReply else .reply successReply

/-- A worker that always replies with a REQUEST-typed message. -/
def alwaysRequestAgent : Nat → AgentReply :=
  fun _ => .reply requestReply

/-- A worker whose call always raises an exception that is not a
`CoordinatorError`. -/
def alwaysRaisesAgent : Nat → AgentReply :=
  fun _ => .raiseOther "ValueError: boom"

/-- Workers whose research phase replies RESPONSE but reports failure,
while the data and writer workers would succeed if ever invoked. -/
def failingResearchWorkers : Workers :=
  ⟨fun _ _ _ => .reply failStatusReply,
   fun _ _ _ => .reply successReply,
   fun _ _ _ => .reply successReply⟩

/-- A builder artifact whose code does not parse, so the harness never
passes. -/
def implFail : Implementation := ⟨⟨false, false, []⟩, ⟨true, true⟩⟩

/-- The model of `def f(x: int) -> int: return x`. -/
def hintedCode : PyCode := ⟨false, true, [⟨[⟨"x", true⟩], true, false⟩]⟩

/-- The model of `def f(x): return x`. -/
def unhintedCode : PyCode := ⟨false, true, [⟨[⟨"x", false⟩], false, false⟩]⟩

/-- The model of `def f(self: int): pass` — its only annotated parameter
is named `self`, which the harness's type-hint scan skips. -/
def selfAnnotatedCode : PyCode := ⟨false, true, [⟨[⟨"self", true⟩], false, false⟩]⟩

/-- C5: serialization round-trip.  For every message (all message types,
optional `action`/`in_reply_to` present or absent, arbitrary
JSON-representable payload), `Message.from_json (m.to_json())` — i.e.
`from_dict` applied to `to_dict`, since `json.dumps`/`json.loads` are the
identity on JSON values — succeeds and preserves every field:
`message_id`, `timestamp`, `from_agent`, `to_agent`, `message_type`,
`action`, `payload`, `in_reply_to`, `trace_id`. -/
theorem message_roundtrip (m : Message) (fid fts ftr : String) :
    Message.from_dict fid fts ftr m.to_dict = .ok m := by
  cases m with
  | mk mid ts fa ta mt act p irt tr =>
    cases mt <;> cases act <;> cases irt <;> rfl

lemma backoff_cons (a n : Nat) :
    2 ^ a :: (List.range n).map (fun k => 2 ^ (a + 1 + k)) =
      (List.range (n + 1)).map (fun k => 2 ^ (a + k)) := by
  rw [List.range_succ_eq_map, List.map_cons, List.map_map]
  refine congrArg₂ List.cons (by rw [Nat.add_zero]) ?_
  apply List.map_congr_left
  intro k _
  simp only [Function.comp_apply, Nat.succ_eq_add_one]
  congr 1
  omega

lemma delegateGo_calls_le (agent : Nat → AgentReply) :
    ∀ (fuel attempt : Nat) (lastErr : Option CoordErr),
      (delegateGo agent attempt lastErr fuel).calls ≤ fuel := by
  intro fuel
  induction fuel with
  | zero => intro attempt lastErr; simp [delegateGo]
  | succ f ih =>
    intro attempt lastErr
    simp only [delegateGo]
    cases hr : runAttempt (agent attempt) with
    | ok p => simp
    | uncaught s => simp
    | caught e =>
      by_cases hf : f = 0
      · simp [hf]
      · have hrest := ih (attempt + 1) (some e)
        simp only [if_neg hf]
        show (delegateGo agent (attempt + 1) (some e) f).calls + 1 ≤ f + 1
        omega

lemma delegateGo_exhausted (agent : Nat → AgentReply) :
    ∀ (fuel attempt : Nat) (lastErr : Option CoordErr),
      1 ≤ fuel →
      (∀ i, i < fuel → ∃ e, runAttempt (agent (attempt + i)) = .caught e) →
      delegateGo agent attempt lastErr fuel =
        ⟨.delegationError (runAttempt (agent (attempt + (fuel - 1)))).errOrNone,
         fuel, (List.range (fuel - 1)).map (fun k => 2 ^ (attempt + k))⟩ := by
  intro fuel
  induction fuel with
  | zero => intro attempt lastErr h; omega
  | succ f ih =>
    intro attempt lastErr _ h
    obtain ⟨e, he⟩ := h 0 (by omega)
    rw [Nat.add_zero] at he
    by_cases hf : f = 0
    · subst hf
      simp [delegateGo, he, AttemptResult.errOrNone]
    · have h' : ∀ i, i < f → ∃ e, runAttempt (agent (attempt + 1 + i)) = .caught e := by
        intro i hi
        have hx := h (i + 1) (by omega)
        rwa [show attempt + (i + 1) = attempt + 1 + i by omega] at hx
      have hrec := ih (attempt + 1) (some e) (by omega) h'
      simp only [delegateGo, he, if_neg hf, hrec]
      have hface : attempt + 1 + (f - 1) = attempt + (f + 1 - 1) := by omega
      rw [hface]
      have hb := backoff_cons attempt (f - 1)
      rw [show f - 1 + 1 = f from by omega] at hb
      rw [hb]
      simp

lemma delegateGo_success (agent : Nat → AgentReply) :
    ∀ (k attempt fuel : Nat) (lastErr : Option CoordErr) (p : J),
      k < fuel →
      (∀ i, i < k → ∃ e, runAttempt (agent (attempt + i)) = .caught e) →
      runAttempt (agent (attempt + k)) = .ok p →
      delegateGo agent attempt lastErr fuel =
        ⟨.success p, k + 1, (List.range k).map (fun i => 2 ^ (attempt + i))⟩ := by
  intro k
  induction k with
  | zero =>
    intro attempt fuel lastErr p hk h hok
    rw [Nat.add_zero] at hok
    cases fuel with
    | zero => omega
    | succ f => simp [delegateGo, hok]
  | succ k' ih =>
    intro attempt fuel lastErr p hk h hok
    obtain ⟨e, he⟩ := h 0 (by omega)
    rw [Nat.add_zero] at he
    cases fuel with
    | zero => omega
    | succ f =>
      have hf : ¬ f = 0 := by omega
      have h' : ∀ i, i < k' → ∃ e, runAttempt (agent (attempt + 1 + i)) = .caught e := by
        intro i hi
        have hx := h (i + 1) (by omega)
        rwa [show attempt + (i + 1) = attempt + 1 + i by omega] at hx
      have hok' : runAttempt (agent (attempt + 1 + k')) = .ok p := by
        rwa [show attempt + (k' + 1) = attempt + 1 + k' by omega] at hok
      have hrec := ih (attempt + 1) f (some e) p (by omega) h' hok'
      simp only [delegateGo, he, if_neg hf, hrec]
      rw [backoff_cons]

lemma delegateGo_uncaught (agent : Nat → AgentReply) :
    ∀ (k attempt fuel : Nat) (lastErr : Option CoordErr) (s : String),
      k < fuel →
      (∀ i, i < k → ∃ e, runAttempt (agent (attempt + i)) = .caught e) →
      runAttempt (agent (attempt + k)) = .uncaught s →
      delegateGo agent attempt lastErr fuel =
        ⟨.uncaught s, k + 1, (List.range k).map (fun i => 2 ^ (attempt + i))⟩ := by
  intro k
  induction k with
  | zero =>
    intro attempt fuel lastErr s hk h hu
    rw [Nat.add_zero] at hu
    cases fuel with
    | zero => omega
    | succ f => simp [delegateGo, hu]
  | succ k' ih =>
    intro attempt fuel lastErr s hk h hu
    obtain ⟨e, he⟩ := h 0 (by omega)
    rw [Nat.add_zero] at he
    cases fuel with
    | zero => omega
    | succ f =>
      have hf : ¬ f = 0 := by omega
      have h' : ∀ i, i < k' → ∃ e, runAttempt (agent (attempt + 1 + i)) = .caught e := by
        intro i hi
        have hx := h (i + 1) (by omega)
        rwa [show attempt + (i + 1) = attempt + 1 + i by omega] at hx
      have hu' : runAttempt (agent (attempt + 1 + k')) = .uncaught s := by
        rwa [show attempt + (k' + 1) = attempt + 1 + k' by omega] at hu
      have hrec := ih (attempt + 1) f (some e) s (by omega) h' hu'
      simp only [delegateGo, he, if_neg hf, hrec]
      rw [backoff_cons]

/-- C1 counterexample: a worker that always replies with a REQUEST-typed
message (neither RESPONSE nor ERROR).  With `max_retries = 2`,
`Coordinator.delegate` invokes the worker twice and performs a 1-second
backoff sleep before the second attempt — the protocol violation is
retried, not failed immediately, because the `AgentDelegationError` it
raises is itself a `CoordinatorError` caught by the retry loop. -/
theorem delegate_protocol_violation_cex :
    (Coordinator.delegate alwaysRequestAgent 2).calls = 2 ∧
    (Coordinator.delegate alwaysRequestAgent 2).sleeps = [1] ∧
    (Coordinator.delegate alwaysRequestAgent 2).outcome =
      .delegationError (some (.unexpectedType .request)) :=
  ⟨rfl, rfl, rfl⟩

/-- C1 (amended): a reply whose message type is neither RESPONSE nor ERROR
raises the protocol-violation `AgentDelegationError`, but inside the `try`
block, where `except CoordinatorError` catches it: it is retried with the
same exponential backoff as any other delegation error, and when every
attempt returns such a reply, `delegate` raises a final `DelegationError`
embedding the protocol violation only after `max_retries` attempts. -/
theorem delegate_protocol_violation_retried (agent : Nat → AgentReply)
    (maxRetries : Nat) (h1 : 1 ≤ maxRetries)
    (hag : ∀ i, i < maxRetries →
      ∃ m, agent i = .reply m ∧ m.message_type = .request) :
    Coordinator.delegate agent maxRetries =
      ⟨.delegationError (some (.unexpectedType .request)), maxRetries,
       (List.range (maxRetries - 1)).map (fun i => 2 ^ i)⟩ := by
  have hc : ∀ i, i < maxRetries →
      runAttempt (agent i) = .caught (.unexpectedType .request) := by
    intro i hi
    obtain ⟨m, hm, ht⟩ := hag i hi
    rw [hm]
    simp [runAttempt, ht]
  have hx := delegateGo_exhausted agent maxRetries 0 none h1
    (fun i hi => ⟨.unexpectedType .request, by rw [Nat.zero_add]; exact hc i hi⟩)
  rw [Nat.zero_add, hc (maxRetries - 1) (by omega)] at hx
  simp only [AttemptResult.errOrNone, Nat.zero_add] at hx
  exact hx

/-- C1 witness: the amended behaviour at a concrete input — the
always-REQUEST worker with `max_retries = 2` ends in the final
`DelegationError` after 2 invocations and a 1-second backoff. -/
theorem delegate_protocol_violation_retried_witness :
    Coordinator.delegate alwaysRequestAgent 2 =
      ⟨.delegationError (some (.unexpectedType .request)), 2, [1]⟩ := by
  have h := delegate_protocol_violation_retried alwaysRequestAgent 2 (by omega)
    (fun i _ => ⟨requestReply, rfl, rfl⟩)
  exact h.trans (by decide)

/-- C3 counterexample: a worker whose call always raises `ValueError` — an
exception that is not a `CoordinatorError` — with `max_retries = 3`.  The
claim says any raised exception is retried with backoff and ends in a
`DelegationError`; instead the exception propagates out of `delegate`
immediately: one invocation, no backoff sleep, no `DelegationError`. -/
theorem delegate_retry_contract_cex :
    Coordinator.delegate alwaysRaisesAgent 3 =
      ⟨.uncaught "ValueError: boom", 1, []⟩ := rfl

/-- C3 (amended): for `max_retries ≥ 1`, `delegate` invokes the worker at
most `max_retries` times; an attempt returning RESPONSE after `k` failed
attempts (ERROR replies or raised `CoordinatorError`s) returns that
payload immediately with backoff sleeps `2^0, …, 2^(k-1)`; when all
`max_retries` attempts fail it raises a `DelegationError` embedding the
last error seen; and an exception that is NOT a `CoordinatorError`
propagates immediately, without retry, backoff or `DelegationError`. -/
theorem delegate_retry_contract (agent : Nat → AgentReply) (maxRetries : Nat)
    (h1 : 1 ≤ maxRetries) :
    ((Coordinator.delegate agent maxRetries).calls ≤ maxRetries) ∧
    (∀ k p, k < maxRetries →
      (∀ i, i < k → ∃ e, runAttempt (agent i) = .caught e) →
      runAttempt (agent k) = .ok p →
      Coordinator.delegate agent maxRetries =
        ⟨.success p, k + 1, (List.range k).map (fun i => 2 ^ i)⟩) ∧
    ((∀ i, i < maxRetries → ∃ e, runAttempt (agent i) = .caught e) →
      Coordinator.delegate agent maxRetries =
        ⟨.delegationError (runAttempt (agent (maxRetries - 1))).errOrNone,
         maxRetries, (List.range (maxRetries - 1)).map (fun i => 2 ^ i)⟩) ∧
    (∀ k s, k < maxRetries →
      (∀ i, i < k → ∃ e, runAttempt (agent i) = .caught e) →
      runAttempt (agent k) = .uncaught s →
      Coordinator.delegate agent maxRetries =
        ⟨.uncaught s, k + 1, (List.range k).map (fun i => 2 ^ i)⟩) := by
  refine ⟨delegateGo_calls_le agent maxRetries 0 none, ?_, ?_, ?_⟩
  · intro k p hk hfail hok
    have hx := delegateGo_success agent k 0 maxRetries none p hk
      (fun i hi => by rw [Nat.zero_add]; exact hfail i hi)
      (by rw [Nat.zero_add]; exact hok)
    simpa only [Nat.zero_add] using hx
  · intro hfail
    have hx := delegateGo_exhausted agent maxRetries 0 none h1
      (fun i hi => by rw [Nat.zero_add]; exact hfail i hi)
    simpa only [Nat.zero_add] using hx
  · intro k s hk hfail hu
    have hx := delegateGo_uncaught agent k 0 maxRetries none s hk
      (fun i hi => by rw [Nat.zero_add]; exact hfail i hi)
      (by rw [Nat.zero_add]; exact hu)
    simpa only [Nat.zero_add] using hx

/-- C3 witness: the spec's own example via the amended theorem — a worker
that fails twice (ERROR replies) then succeeds, with `max_retries = 3`:
`delegate` returns the success payload after exactly 3 invocations with
backoff sleeps of 1s then 2s. -/
theorem delegate_retry_contract_witness :
    Coordinator.delegate failTwiceAgent 3 =
      ⟨.success (jobj [("status", .str "success")]), 3, [1, 2]⟩ := by
  have h := (delegate_retry_contract failTwiceAgent 3 (by omega)).2.1 2
    (jobj [("status", .str "success")]) (by omega)
    (fun i hi => ⟨.agentError (some (.str "boom")), by
      simp only [failTwiceAgent, if_pos hi]
      rfl⟩)
    rfl
  exact h.trans (by decide)

/-- C4: `execute_message` is the fault-isolation boundary.  For every
request and every behaviour of `execute` it returns a message (no
exception escapes, since `except Exception` catches the model's
exceptions); the reply's `in_reply_to` is the request's `message_id` and
its `trace_id` is the request's `trace_id`; a returned result yields a
RESPONSE carrying it as payload, and a raised exception yields an ERROR
whose payload carries the error description under `"error"`. -/
theorem execute_message_fault_isolation (name fid fts : String)
    (exec : Option String → J → Except String J) (req : Message) :
    ((WorkerAgent.execute_message name exec fid fts req).in_reply_to =
       some req.message_id) ∧
    ((WorkerAgent.execute_message name exec fid fts req).trace_id =
       req.trace_id) ∧
    (∀ r, exec req.action req.payload = .ok r →
      (WorkerAgent.execute_message name exec fid fts req).message_type =
          .response ∧
        (WorkerAgent.execute_message name exec fid fts req).payload = r) ∧
    (∀ e, exec req.action req.payload = .error e →
      (WorkerAgent.execute_message name exec fid fts req).message_type =
          .error ∧
        (WorkerAgent.execute_message name exec fid fts req).payload.lookupKey
            "error" = some (.str e)) := by
  refine ⟨?_, ?_, ?_, ?_⟩
  · unfold WorkerAgent.execute_message
    cases exec req.action req.payload <;> rfl
  · unfold WorkerAgent.execute_message
    cases exec req.action req.payload <;> rfl
  · intro r hr
    unfold WorkerAgent.execute_message
    rw [hr]
    exact ⟨rfl, rfl⟩
  · intro e he
    unfold WorkerAgent.execute_message
    rw [he]
    exact ⟨rfl, by simp [jobj, J.lookupKey, JFields.lookup]⟩

/-- C4 witness: the theorem at a concrete request for both behaviours — a
succeeding `execute` and a raising `execute`. -/
theorem execute_message_fault_isolation_witness :
    ((WorkerAgent.execute_message "research"
        (fun _ _ => .ok (jobj [("status", .str "success")])) "m2" "t2"
        requestReply).message_type = .response ∧
      (WorkerAgent.execute_message "research"
        (fun _ _ => .ok (jobj [("status", .str "success")])) "m2" "t2"
        requestReply).in_reply_to = some "m-bad") ∧
    ((WorkerAgent.execute_message "research"
        (fun _ _ => .error "boom") "m2" "t2" requestReply).message_type =
        .error ∧
      (WorkerAgent.execute_message "research"
        (fun _ _ => .error "boom") "m2" "t2" requestReply).trace_id = "tr-1") := by
  constructor
  · refine ⟨?_, ?_⟩
    · exact ((execute_message_fault_isolation "research" "m2" "t2"
        (fun _ _ => .ok (jobj [("status", .str "success")]))
        requestReply).2.2.1 _ rfl).1
    · exact (execute_message_fault_isolation "research" "m2" "t2"
        (fun _ _ => .ok (jobj [("status", .str "success")]))
        requestReply).1
  · refine ⟨?_, ?_⟩
    · exact ((execute_message_fault_isolation "research" "m2" "t2"
        (fun _ _ => .error "boom") requestReply).2.2.2 _ rfl).1
    · exact (execute_message_fault_isolation "research" "m2" "t2"
        (fun _ _ => .error "boom") requestReply).2.1

lemma serializeState_insert_unserializable (v : PyVal)
    (hv : v.serializable = false) :
    ∀ (s : List (String × PyVal)) (k : String),
      serializeState (dictSet s k v) = none := by
  cases v with
  | json j => simp [PyVal.serializable] at hv
  | obj d =>
    intro s
    induction s with
    | nil => intro k; rfl
    | cons kv t ih =>
      intro k
      obtain ⟨k2, v2⟩ := kv
      by_cases hk : k2 = k
      · simp only [dictSet, if_pos hk]
        rfl
      · simp only [dictSet, if_neg hk]
        cases v2 with
        | json j => simp [serializeState, ih k]
        | obj d2 => rfl

/-- C2 counterexample: `set` with a non-JSON-serializable value on a state
holding a previous key `"a"`.  The call raises (`json.dump`'s
`TypeError` — the repository defines no `SerializationError`), and the
persisted state IS changed by the failed call: the file was truncated and
partially written, so a subsequent read does not see the previous
fully-written version — it falls back to the sentinel state and the
previous value of `"a"` is lost. -/
theorem shared_state_set_partial_write_cex :
    (SharedState.get
        (StateFile.wellFormed [("_initialized", .bool true), ("a", .num 1)])
        "a" = some (.num 1)) ∧
    ((SharedState.set
        (StateFile.wellFormed [("_initialized", .bool true), ("a", .num 1)])
        "b" (.obj "object()")).2 = true) ∧
    ((SharedState.set
        (StateFile.wellFormed [("_initialized", .bool true), ("a", .num 1)])
        "b" (.obj "object()")).1 = .corrupt) ∧
    (SharedState.get
        (SharedState.set
          (StateFile.wellFormed [("_initialized", .bool true), ("a", .num 1)])
          "b" (.obj "object()")).1 "a" = none) := by
  refine ⟨rfl, rfl, rfl, rfl⟩

/-- C2 (amended): for every prior file state, `set` with a value that is
not JSON-serializable raises `json.dump`'s `TypeError` (there is no
`SerializationError` in the repository), and the persisted state is NOT
preserved: the file is left truncated/partially written (corrupt), so a
subsequent read returns the sentinel initial state — the fully-written
previous version is lost rather than retained. -/
theorem shared_state_set_unserializable (f : StateFile) (k : String)
    (v : PyVal) (hv : v.serializable = false) :
    ((SharedState.set f k v).2 = true) ∧
    ((SharedState.set f k v).1 = .corrupt) ∧
    (SharedState.read (SharedState.set f k v).1 = initialState) := by
  have hs := serializeState_insert_unserializable v hv
    (toPyState (SharedState.read f)) k
  unfold SharedState.set SharedState.write
  rw [hs]
  exact ⟨rfl, rfl, rfl⟩

/-- C2 witness: the amended theorem at a concrete state and value. -/
theorem shared_state_set_unserializable_witness :
    ((SharedState.set (StateFile.wellFormed [("_initialized", .bool true)])
        "cache" (.obj "lambda")).2 = true) ∧
    ((SharedState.set (StateFile.wellFormed [("_initialized", .bool true)])
        "cache" (.obj "lambda")).1 = .corrupt) ∧
    (SharedState.read
        (SharedState.set (StateFile.wellFormed [("_initialized", .bool true)])
          "cache" (.obj "lambda")).1 = initialState) :=
  shared_state_set_unserializable
    (StateFile.wellFormed [("_initialized", .bool true)]) "cache"
    (.obj "lambda") rfl

/-- C8: phase-failure semantics of `generate_report`.  Whenever a phase's
delegated result is a RESPONSE whose payload does not report
`status == "success"`, the workflow raises a `WorkflowError` naming that
phase and the workers of all later phases are never invoked: a research
business failure leaves the data and writer workers at zero calls, and a
data business failure leaves the writer at zero calls. -/
theorem generate_report_phase_failure (w : Workers) (q : String) :
    (∀ p, (researchDel w q).outcome = .success p →
      ¬ p.lookupKey "status" = some (.str "success") →
      Coordinator.generate_report w q =
        ⟨.workflowError .research, (researchDel w q).calls, 0, 0⟩) ∧
    (∀ p d, (researchDel w q).outcome = .success p →
      p.lookupKey "status" = some (.str "success") →
      (dataDel w q ((p.lookupKey "findings").getD (jarr []))).outcome =
        .success d →
      ¬ d.lookupKey "status" = some (.str "success") →
      Coordinator.generate_report w q =
        ⟨.workflowError .data, (researchDel w q).calls,
         (dataDel w q ((p.lookupKey "findings").getD (jarr []))).calls, 0⟩) ∧
    (∀ p d u, (researchDel w q).outcome = .success p →
      p.lookupKey "status" = some (.str "success") →
      (dataDel w q ((p.lookupKey "findings").getD (jarr []))).outcome =
        .success d →
      d.lookupKey "status" = some (.str "success") →
      (writerDel w q ((p.lookupKey "findings").getD (jarr []))
          ((d.lookupKey "analysis").getD (jobj []))).outcome = .success u →
      ¬ u.lookupKey "status" = some (.str "success") →
      Coordinator.generate_report w q =
        ⟨.workflowError .writer, (researchDel w q).calls,
         (dataDel w q ((p.lookupKey "findings").getD (jarr []))).calls,
         (writerDel w q ((p.lookupKey "findings").getD (jarr []))
           ((d.lookupKey "analysis").getD (jobj []))).calls⟩) := by
  refine ⟨?_, ?_, ?_⟩
  · intro p hr hs
    unfold Coordinator.generate_report
    simp only [hr, if_neg hs]
  · intro p d hr hs hd hds
    unfold Coordinator.generate_report
    simp only [hr, if_pos hs, hd, if_neg hds]
  · intro p d u hr hs hd hds hw hws
    unfold Coordinator.generate_report
    simp only [hr, if_pos hs, hd, if_pos hds, hw, if_neg hws]

/-- C8 witness: a research worker replying RESPONSE with a failure status;
`generate_report` raises `WorkflowError` for the research phase after one
research invocation, and the data and writer workers are invoked zero
times. -/
theorem generate_report_phase_failure_witness :
    Coordinator.generate_report failingResearchWorkers "EV market" =
      ⟨.workflowError .research, 1, 0, 0⟩ := by
  have h := (generate_report_phase_failure failingResearchWorkers "EV market").1
    (jobj [("status", .str "error"), ("error", .str "no sources")])
    rfl (by decide)
  exact h.trans (by decide)

/-- C10: blank code short-circuits `validate`.  For every observed code
whose string is empty or whitespace-only, `validate` returns
`passed = False` with exactly one recorded check, named `has_code`, and no
syntax / function / type-hint / docstring check is recorded — even when
the code would compile (the empty string is syntactically valid Python). -/
theorem validate_blank_code (c : PyCode) (h : c.blank = true) :
    OVETestHarness.validate c = ⟨false, [⟨"has_code", false⟩]⟩ := by
  unfold OVETestHarness.validate
  rw [h]
  rfl

/-- C10 witness: the empty code string (blank, parses, no functions). -/
theorem validate_blank_code_witness :
    emptyCode.blank = true ∧
    OVETestHarness.validate emptyCode = ⟨false, [⟨"has_code", false⟩]⟩ :=
  ⟨rfl, validate_blank_code emptyCode rfl⟩

/-- C6 counterexample: the claim's iff quantifies over every code string
and fails twice.  The empty string passes the syntax check (it compiles)
and contains no functions, so the claim forces `passed = True`, while
`validate` returns `passed = False` through the `has_code` gate.  And
`def f(self: int): pass` has a type-annotated parameter, so the claim
forces `passed = True`, while `validate` returns `passed = False` because
the harness's scan skips parameters named `self`/`cls`. -/
theorem validate_passed_iff_cex :
    (¬ (((OVETestHarness.validate emptyCode).passed = true) ↔
       (emptyCode.parses = true ∧
        (emptyCode.funcs = [] ∨ specTypeHints emptyCode.funcs)))) ∧
    (¬ (((OVETestHarness.validate selfAnnotatedCode).passed = true) ↔
       (selfAnnotatedCode.parses = true ∧
        (selfAnnotatedCode.funcs = [] ∨
          ∃ f ∈ selfAnnotatedCode.funcs, f.returnsAnnotated = true ∨
            ∃ a ∈ f.args, a.annotated = true)))) := by
  constructor
  · intro h
    have hx := h.mpr ⟨rfl, Or.inl rfl⟩
    simp [OVETestHarness.validate, emptyCode] at hx
  · intro h
    have hx := h.mpr (by decide)
    simp [OVETestHarness.validate, selfAnnotatedCode, checkTypeHints,
      typeHintsFound] at hx

lemma specTypeHints_iff (funcs : List PyFunc) :
    specTypeHints funcs ↔ typeHintsFound funcs = true := by
  unfold specTypeHints typeHintsFound
  simp only [List.any_eq_true, Bool.or_eq_true, Bool.and_eq_true,
    decide_eq_true_eq]

/-- C6 (amended): for every code string that is not empty or
whitespace-only, `validate.passed` is true iff the syntax check passes AND
(no function definitions exist OR at least one function has a
type-annotated parameter or return type — parameters named `self`/`cls`
not counted, matching the harness's scan); blank code instead fails the
`has_code` gate and returns `passed = False`. -/
theorem validate_passed_iff (c : PyCode) (h : c.blank = false) :
    (OVETestHarness.validate c).passed = true ↔
      (c.parses = true ∧ (c.funcs = [] ∨ specTypeHints c.funcs)) := by
  obtain ⟨blank, parses, funcs⟩ := c
  simp only at h
  subst h
  cases parses with
  | false => simp [OVETestHarness.validate]
  | true =>
    by_cases hf : funcs = []
    · subst hf
      simp [OVETestHarness.validate, checkTypeHints]
    · have hfe : funcs.isEmpty = false := by
        simp [List.isEmpty_iff, hf]
      cases ht : typeHintsFound funcs with
      | true =>
        simp [OVETestHarness.validate, checkTypeHints, hfe, ht, hf,
          specTypeHints_iff]
      | false =>
        simp [OVETestHarness.validate, checkTypeHints, hfe, ht, hf,
          specTypeHints_iff]

/-- C6 witness: the two concrete examples from the claim through the
amended theorem — `def f(x: int) -> int: return x` validates with
`passed = True`, and `def f(x): return x` with `passed = False`. -/
theorem validate_passed_iff_witness :
    (OVETestHarness.validate hintedCode).passed = true ∧
    (OVETestHarness.validate unhintedCode).passed = false := by
  constructor
  · exact (validate_passed_iff hintedCode rfl).mpr (by decide)
  · cases hb : (OVETestHarness.validate unhintedCode).passed with
    | false => rfl
    | true =>
      have hx := (validate_passed_iff unhintedCode rfl).mp hb
      exact absurd hx (by decide)

/-- C7: exhaustion of `_process_task`.  For a fresh task (no prior failure
context) whose harness check or architect review fails on every one of the
`MAX_RETRIES = 3` attempts, the result has `success = False`,
`attempts = 3`, and `last_error` is the most recent recorded failure: the
`str()` of the last failing attempt's harness validation, or the last
review feedback when no attempt failed the harness. -/
theorem process_task_exhausted (builder : Nat → Implementation)
    (reviewer : Nat → Review) (tid : Nat)
    (h : ∀ i, i < MAX_RETRIES →
      ¬((OVETestHarness.run (builder i)).overallPassed = true ∧
        (reviewer i).approved = true)) :
    ArchitectBuilderCoordinator.process_task builder reviewer ⟨tid, none, none⟩ =
      ⟨tid, false, MAX_RETRIES, none,
       some (if (OVETestHarness.run (builder 2)).overallPassed = false then
               validationStr (OVETestHarness.run (builder 2)).validation
             else if (OVETestHarness.run (builder 1)).overallPassed = false then
               validationStr (OVETestHarness.run (builder 1)).validation
             else if (OVETestHarness.run (builder 0)).overallPassed = false then
               validationStr (OVETestHarness.run (builder 0)).validation
             else (reviewer 2).feedback)⟩ := by
  have ha : ∀ i, i < MAX_RETRIES →
      (OVETestHarness.run (builder i)).overallPassed = true →
      (reviewer i).approved = false := by
    intro i hi hov
    cases hap : (reviewer i).approved with
    | false => rfl
    | true => exact absurd ⟨hov, hap⟩ (h i hi)
  have h0 := ha 0 (by decide)
  have h1 := ha 1 (by decide)
  have h2 := ha 2 (by decide)
  unfold ArchitectBuilderCoordinator.process_task
  cases hov0 : (OVETestHarness.run (builder 0)).overallPassed <;>
  cases hov1 : (OVETestHarness.run (builder 1)).overallPassed <;>
  cases hov2 : (OVETestHarness.run (builder 2)).overallPassed <;>
    simp [processTaskGo, MAX_RETRIES, hov0, hov1, hov2, h0, h1, h2]

/-- C7 witness: a builder whose code never parses, so the harness fails on
all three attempts; the task result carries the last harness validation's
string form as `last_error`. -/
theorem process_task_exhausted_witness :
    ArchitectBuilderCoordinator.process_task (fun _ => implFail)
        (fun _ => ⟨false, "needs work"⟩) ⟨5, none, none⟩ =
      ⟨5, false, 3, none,
       some (validationStr ⟨false, [⟨"syntax", false⟩]⟩)⟩ := by
  have h := process_task_exhausted (fun _ => implFail)
    (fun _ => ⟨false, "needs work"⟩) 5
    (fun i _ hx =>
      absurd hx.1
        (show ¬(OVETestHarness.run implFail).overallPassed = true by decide))
  exact h.trans (by decide)

lemma filter_not_success_length (l : List TaskResult) :
    decide ((l.filter (fun r => !r.success)).length = 0) =
      l.all (fun r => r.success) := by
  induction l with
  | nil => rfl
  | cons a t ih =>
    cases ha : a.success with
    | true =>
      rw [List.filter_cons, if_neg (by simp [ha]), List.all_cons, ha,
        Bool.true_and]
      exact ih
    | false =>
      rw [List.filter_cons, if_pos (by simp [ha]), List.all_cons, ha,
        Bool.false_and]
      simp

/-- C9: the workflow summary of `process_request` satisfies
`overall_success = (no task's result has success = False) AND (the plan
contained at least one task)`; in particular an empty plan yields
`overall_success = False` and `total_tasks = 0`. -/
theorem process_request_overall (plan : List TaskSt)
    (builder : Nat → Nat → Implementation) (reviewer : Nat → Nat → Review) :
    ((ArchitectBuilderCoordinator.process_request plan builder
          reviewer).overallSuccess =
      ((ArchitectBuilderCoordinator.process_request plan builder
            reviewer).results.all (fun r => r.success) &&
        decide (0 < plan.length))) ∧
    (plan = [] →
      (ArchitectBuilderCoordinator.process_request plan builder
            reviewer).overallSuccess = false ∧
        (ArchitectBuilderCoordinator.process_request plan builder
            reviewer).totalTasks = 0) := by
  constructor
  · unfold ArchitectBuilderCoordinator.process_request
    by_cases hp : plan.isEmpty
    · rw [if_pos hp]
      rw [List.isEmpty_iff] at hp
      subst hp
      rfl
    · rw [if_neg hp]
      unfold ArchitectBuilderCoordinator.create_summary
      simp only []
      rw [filter_not_success_length]
  · intro hp
    subst hp
    exact ⟨rfl, rfl⟩

/-- C9 witness: an empty plan at concrete builder/reviewer behaviours. -/
theorem process_request_overall_witness :
    (ArchitectBuilderCoordinator.process_request [] (fun _ _ => implFail)
        (fun _ _ => ⟨false, "no"⟩)).overallSuccess = false ∧
      (ArchitectBuilderCoordinator.process_request [] (fun _ _ => implFail)
        (fun _ _ => ⟨false, "no"⟩)).totalTasks = 0 :=
  (process_request_overall [] (fun _ _ => implFail)
    (fun _ _ => ⟨false, "no"⟩)).2 rfl
